import Mathlib

/-!
Verification of FreeCAD_ExtMan against its specification.

Shallow embedding of the three source files of the repository:

* `freecad/extman/webview.py` — the URL-scheme bridge
  (`UrlRequestInterceptor.interceptRequest`, `Response`,
  `SchemeHandler.requestStarted`);
* `freecad/extman/protocol/flags.py` — the flags database
  (`get_flags_database`, `apply_predefined_flags`);
* `freecad/extman/protocol/http.py` — the legacy HTTP helper
  (`getProxyConf`, `httpGet`, `httpDownload`).

Python bytes are modelled as `List Nat`; Python exceptions as an explicit
`PyErr` value threaded through `Except`; the host environment (Qt, the file
system, the network, `urllib`) as explicit parameters.  Python `dict`s are
modelled as association lists with insertion-order semantics (updating an
existing key keeps its position, a new key is appended).
-/

set_option autoImplicit false

namespace ExtMan

/-- A Python exception value.  `urlError` models `urllib.error.URLError`
(with its `reason` string), `other` models any other exception caught by a
bare `except:`, and `unboundLocal` models the `UnboundLocalError` the
interpreter raises when a local variable is read before assignment. -/
inductive PyErr where
  | urlError (reason : String)
  | other (msg : String)
  | unboundLocal (var : String)
  deriving DecidableEq, Repr

/-- Insertion into a Python `dict` modelled as an association list:
assigning an existing key replaces its value in place, assigning a fresh
key appends it. -/
def pyDictInsert {α : Type} (d : List (String × α)) (k : String) (v : α) :
    List (String × α) :=
  if d.any (fun kv => kv.1 = k) then
    d.map (fun kv => if kv.1 = k then (k, v) else kv)
  else
    d ++ [(k, v)]

/-- Python `dict.get(k)` on the association-list model. -/
def pyDictGet {α : Type} (d : List (String × α)) (k : String) : Option α :=
  (d.find? (fun kv => kv.1 = k)).map (·.2)

/-- Building a `dict` from a list of key/value pairs, as a Python dict
comprehension does: later occurrences of a key override earlier ones. -/
def pyDictOf {α : Type} (l : List (String × α)) : List (String × α) :=
  l.foldl (fun d kv => pyDictInsert d kv.1 kv.2) []

/-! ## webview.py -/

/-- Python `str.endswith` (and Qt/Lean string suffix testing), written over
the character lists so that it reduces structurally. -/
def strEndsWith (s t : String) : Bool :=
  s.data.reverse.take t.data.length == t.data.reverse

/-- Python `str.lower`, written over the character list. -/
def pyLower (s : String) : String :=
  String.mk (s.data.map Char.toLower)

/-- The character class `\w` of `ACTION_URL_PATTERN` (modelled over ASCII word characters). -/
def isWordChar (c : Char) : Bool :=
  c.isAlphanum || c = '_'

/-- The regex `ACTION_URL_PATTERN = re.compile(r'.*/action\.(\w+)$')` applied with
`re.match`, returning `group(1)` on success.

The regex matches `path` exactly when `path` decomposes as
`prefix ++ "/action." ++ w` with `w` a nonempty run of word characters.
Because `'.'` is not a word character, the captured group is forced to be
the maximal word-character suffix of `path`, so the match is computed by
taking that suffix `w` and testing whether what precedes it ends in
`"/action."`. -/
def ACTION_URL_PATTERN_match (path : String) : Option String :=
  let r := path.data.reverse
  let w := r.takeWhile isWordChar
  if w.isEmpty then none
  else if strEndsWith (String.mk (r.drop w.length).reverse) "/action." then
    some (String.mk w.reverse)
  else none

/-- The regex `WINDOWS_PATH_PATTERN = re.compile(r'^/([a-zA-Z]\\:.*)')` applied with
`re.match`, returning `group(1)` on success.  Note that in the raw string
`r'...'` the sequence `\\` is a regex escape for one literal backslash, so
the pattern requires `/<letter>\:` at the start of the path (not
`/<letter>:` as the adjacent source comment suggests); `.*` then greedily
captures the rest of the line (stopping at a newline). -/
def WINDOWS_PATH_PATTERN_match (p : String) : Option String :=
  match p.toList with
  | '/' :: c :: '\\' :: ':' :: rest =>
      if c.isAlpha then
        some (String.mk (c :: '\\' :: ':' :: rest.takeWhile (fun x => x ≠ '\n')))
      else none
  | _ => none

/-- The Qt navigation types distinguished by `interceptRequest`. -/
inductive NavigationType where
  | link
  | typed
  | formSubmitted
  | backForward
  | reload
  | otherNav
  deriving DecidableEq, Repr

/-- The part of `QUrl` the bridge reads: scheme, host, path and the
`isLocalFile()` flag. -/
structure QUrl where
  scheme : String
  host : String
  path : String
  localFile : Bool
  deriving DecidableEq, Repr

/-- The part of `QWebEngineUrlRequestInfo` the interceptor reads. -/
structure RequestInfo where
  navigationType : NavigationType
  url : QUrl
  deriving DecidableEq, Repr

/-- The Windows-path fix-up performed inside `interceptRequest`:
when the url has no host and is a local file, and the Windows path pattern
matches, the path is replaced by the captured group. -/
def fixWindowsPath (u : QUrl) : QUrl :=
  if u.host = "" ∧ u.localFile = true then
    match WINDOWS_PATH_PATTERN_match u.path with
    | some p => { u with path := p }
    | none => u
  else u

/-- Model of `UrlRequestInterceptor.interceptRequest`.  Returns `some info` when the
request is forwarded to `self.owner.interseptLink`, `none` when it passes
through.  The fix-up mutates the local `QUrl` copy used for the scheme
test; the object handed to `interseptLink` is the original `info`. -/
def interceptRequest (info : RequestInfo) : Option RequestInfo :=
  if info.navigationType = NavigationType.link then
    let url := fixWindowsPath info.url
    if url.scheme = "extman" then some info else none
  else none

/-- A `QtCore.QBuffer`: a byte buffer with a position and an open/closed
flag.  `QBuffer.write` writes at the current position, overwriting and
extending as needed. -/
structure QBuffer where
  data : List Nat
  pos : Nat
  closed : Bool
  deriving DecidableEq, Repr

namespace QBuffer

/-- A freshly constructed buffer after `buf.open(QIODevice.WriteOnly)`. -/
def fresh : QBuffer := ⟨[], 0, false⟩

def write (b : QBuffer) (bs : List Nat) : QBuffer :=
  { b with
    data := b.data.take b.pos ++ bs ++ b.data.drop (b.pos + bs.length)
    pos := b.pos + bs.length }

def seek (b : QBuffer) (p : Nat) : QBuffer :=
  { b with pos := p }

def close (b : QBuffer) : QBuffer :=
  { b with closed := true }

end QBuffer

/-- What `request.reply(content_type, buffer)` receives: the encoded
content type and the buffer in the state it was handed over. -/
structure Reply where
  contentType : List Nat
  buffer : QBuffer
  deriving DecidableEq, Repr

/-- Model of `Response.write(data)`: `self.buffer.write(data.encode())`.
`enc` models Python `str.encode` (UTF-8). -/
def Response.write (enc : String → List Nat) (buffer : QBuffer) (data : String) :
    QBuffer :=
  buffer.write (enc data)

/-- Model of `Response.send(content_type)`: seek the buffer to 0, close it, then
`self.request.reply(content_type.encode(), self.buffer)`. -/
def Response.send (enc : String → List Nat) (buffer : QBuffer)
    (content_type : String) : Reply :=
  let b := (buffer.seek 0).close
  { contentType := enc content_type, buffer := b }

/-- A whole `Response` interaction: a fresh buffer, a sequence of
`Response.write` calls in order, then one `Response.send`. -/
def responseRun (enc : String → List Nat) (writes : List String)
    (content_type : String) : Reply :=
  Response.send enc (writes.foldl (Response.write enc) QBuffer.fresh) content_type

/-- The request seen by `SchemeHandler.requestStarted`: the url path and
the query items returned by `QUrlQuery(url).queryItems()`. -/
structure SchemeRequest where
  path : String
  queryItems : List (String × String)
  deriving DecidableEq, Repr

/-- The host environment `requestStarted` runs against: `urllib.parse.unquote`
(URL-decoding of query values), `utils.fix_win_path` (defined in a module of
this repository outside the given sources, kept abstract — no claim depends
on its value), `os.path.exists`, and the outcome of `open(file, 'rb')`
followed by `f.read()` (`Except.error` when opening or reading raises). -/
structure WebEnv where
  unquote : String → String
  fix_win_path : String → String
  pathExists : String → Bool
  readFile : String → Except PyErr (List Nat)

/-- The observable outcome of one `requestStarted` call:

* `handled path action params` — `self.requestHandler(path, action, params,
  request, response)` was invoked with these arguments;
* `fileReply contentType body` — a local file was served via
  `request.reply`;
* `notFound filePath` — the `print("Path does not exists: ...")` branch. -/
inductive ReqOutcome where
  | handled (path : String) (action : Option String)
      (params : List (String × String))
  | fileReply (contentType : String) (body : List Nat)
  | notFound (filePath : String)
  deriving DecidableEq, Repr

/-- Model of `SchemeHandler.requestStarted`.  `Except.error e` means the Python
exception `e` propagated out of the callback (the method body contains no
`try`/`except`). -/
def requestStarted (env : WebEnv) (req : SchemeRequest) :
    Except PyErr ReqOutcome :=
  let path := req.path
  let params := pyDictOf (req.queryItems.map (fun kv => (kv.1, env.unquote kv.2)))
  let action := ACTION_URL_PATTERN_match path
  if strEndsWith path ".html" || action.isSome then
    Except.ok (ReqOutcome.handled path action params)
  else
    let file_path := env.fix_win_path path
    if env.pathExists file_path then
      match env.readFile file_path with
      | Except.error e => Except.error e
      | Except.ok body =>
          let lowered := pyLower path
          let content_type :=
            if strEndsWith lowered ".svg" then "image/svg+xml"
            else if strEndsWith lowered ".png" then "image/png"
            else if strEndsWith lowered ".jpg" then "image/jpeg"
            else if strEndsWith lowered ".css" then "text/css"
            else if strEndsWith lowered ".js" then "text/javascript"
            else "text/plain"
          Except.ok (ReqOutcome.fileReply content_type body)
    else
      Except.ok (ReqOutcome.notFound file_path)

/-- Whether an outcome of `requestStarted` invoked `self.requestHandler`
(the host-side RPC dispatch). -/
def handlerInvoked : Except PyErr ReqOutcome → Bool
  | Except.ok (ReqOutcome.handled _ _ _) => true
  | _ => false

/-! ## protocol/flags.py

A flag entry of `flags.json` maps a flag id to lists of `Mod` and `Macro`
names.  The database value for a key is a Python dict `flagId => True`,
modelled as the list of flag ids in insertion order (every stored value is
`True`, so only the key set matters). -/

/-- One entry of the parsed `flags.json`: `(flagId, mods, macros)` where
`mods = flag.get('Mod', [])` and `macros = flag.get('Macro', [])`. -/
def FlagsData : Type := List (String × List String × List String)

/-- The assignment `mod[flagId] = True` on the dict-of-flags model: keep the key in place
if present, append it otherwise. -/
def setFlagTrue (mod : List String) (flagId : String) : List String :=
  if mod.contains flagId then mod else mod ++ [flagId]

/-- The body of `get_flags_database`: fold the parsed json into
`db : dict("{mtype}:{name.lower()}" => dict(flagId => True))`. -/
def build_flags_db (data : FlagsData) : List (String × List String) :=
  data.foldl
    (fun db entry =>
      let flagId := entry.1
      let mods := entry.2.1
      let macros := entry.2.2
      let items := mods.map (fun m => (m, "Mod")) ++ macros.map (fun m => (m, "Macro"))
      items.foldl
        (fun db item =>
          let key := item.2 ++ ":" ++ pyLower item.1
          let mod := (pyDictGet db key).getD []
          pyDictInsert db key (setFlagTrue mod flagId))
        db)
    []

/-- One call of the `functools.lru_cache()`-wrapped `get_flags_database`:
on a cache miss the resource file is read (one read, counted) and the
result is memoised; on a hit the cached dict is returned with no read. -/
def get_flags_database (data : FlagsData)
    (cache : Option (List (String × List String))) :
    List (String × List String) × Option (List (String × List String)) × Nat :=
  match cache with
  | some db => (db, some db, 0)
  | none => (build_flags_db data, some (build_flags_db data), 1)

/-- Running `n` successive calls of the cached `get_flags_database`, starting from
the empty cache of a fresh process: the list of returned dicts, the final
cache, and the total number of file reads performed. -/
def get_flags_database_calls (data : FlagsData) :
    Nat → List (List (String × List String)) ×
          Option (List (String × List String)) × Nat
  | 0 => ([], none, 0)
  | n + 1 =>
      let prev := get_flags_database_calls data n
      let step := get_flags_database data prev.2.1
      (prev.1 ++ [step.1], step.2.1, prev.2.2 + step.2.2)

/-- A package record as `apply_predefined_flags` sees it: `pkg.type`,
`pkg.name`, and `pkg.flags` — a dict `flagId => True` modelled as its key
list, where the empty list is Python-falsy (`None` or `{}`). -/
structure Pkg where
  type : String
  name : String
  flags : List String
  deriving DecidableEq, Repr

/-- The merge `pkg.flags.update(flags)` on the key-list model of a dict whose values
are all `True`: existing keys stay in place (their value is overwritten
with the same `True`), new keys are appended in order. -/
def pyDictUpdateKeys (dst src : List String) : List String :=
  dst ++ src.filter (fun f => ¬ dst.contains f)

/-- Model of `apply_predefined_flags(pkg)`, parameterised by the database returned
by `get_flags_database()`. -/
def apply_predefined_flags (db : List (String × List String)) (pkg : Pkg) :
    Pkg :=
  let package_type := if pkg.type = "Workbench" then "Mod" else pkg.type
  let flags := (pyDictGet db (package_type ++ ":" ++ pyLower pkg.name)).getD []
  if flags ≠ [] then
    if pkg.flags ≠ [] then { pkg with flags := pyDictUpdateKeys pkg.flags flags }
    else { pkg with flags := flags }
  else pkg

/-! ## protocol/http.py -/

/-- A Python value as the HTTP helper returns it.  The embedding keeps the
dynamic type visible: `none` is Python `None`, `str` a string, `list` a
list of small integers (byte values), `bytes` a bytes object. -/
inductive PyVal where
  | none
  | str (s : String)
  | list (l : List Nat)
  | bytes (b : List Nat)
  deriving DecidableEq, Repr

/-- The outcome of one `request.urlopen` attempt for a given url:

* `connectFail e` — `urlopen` itself raised `e`;
* `stream chunks tailErr` — it returned a stream whose successive
  `read(8192)` calls yield `chunks` in order; after the listed chunks,
  `read` raises `tailErr` when it is `some`, and returns the empty bytes
  (end of stream) when it is `none`. -/
inductive Fetch where
  | connectFail (e : PyErr)
  | stream (chunks : List (List Nat)) (tailErr : Option PyErr)
  deriving DecidableEq, Repr

/-- Whether the fetch fails at some point: either `urlopen` raises, or a
later `read` raises.  (Spec-side predicate for the claim wording
"the fetch fails".) -/
def Fetch.failed : Fetch → Bool
  | Fetch.connectFail _ => true
  | Fetch.stream _ tailErr => tailErr.isSome

/-- The accumulation `data += p` in `httpGet`: with a truthy `decode` the accumulator is a
string and the (bytes) chunk is decoded first; with a falsy `decode` the
accumulator is a list and `list += bytes` extends it with the individual
byte values.  `dec codec` models `bytes.decode(codec)`. -/
def pyAccumChunk (dec : String → List Nat → String) (decode : Option String)
    (data : PyVal) (p : List Nat) : PyVal :=
  match decode with
  | some codec =>
      match data with
      | PyVal.str s => PyVal.str (s ++ dec codec p)
      | x => x
  | none =>
      match data with
      | PyVal.list l => PyVal.list (l ++ p)
      | x => x

/-- The read loop shared by `httpGet` (through `pyAccumChunk`) and
`httpDownload`: consume chunks until an empty chunk (`if not p: break`) or
the end of the stream; return the accumulator and the error raised by
`read`, if the loop ran into it. -/
def readLoop {α : Type} (step : α → List Nat → α) :
    α → List (List Nat) → Option PyErr → α × Option PyErr
  | acc, [], tailErr => (acc, tailErr)
  | acc, p :: rest, tailErr =>
      if p = [] then (acc, none)
      else readLoop step (step acc p) rest tailErr

/-- The Addons preference values read by `getProxyConf` (with the defaults
of the `GetBool`/`GetString` calls applied). -/
structure AddonPrefs where
  noProxyCheck : Bool
  systemProxyCheck : Bool
  userProxyCheck : Bool
  proxyUrl : String
  deriving DecidableEq, Repr

/-- Model of `request.ProxyHandler(proxies)`: records the proxies dict it was built
from (values may be `None`, since `proxy.get('http')` can return `None`). -/
structure ProxyHandler where
  proxies : List (String × Option String)
  deriving DecidableEq, Repr

/-- Model of `getProxyConf()`, parameterised by `request.getproxies()` (the system
proxy dict).  Follows the source control flow exactly: when
`NoProxyCheck` is false and both `SystemProxyCheck` and `UserProxyCheck`
are false, no branch assigns the local variable `proxies`, and the final
`return request.ProxyHandler(proxies)` raises `UnboundLocalError` —
modelled as `Except.error (PyErr.unboundLocal "proxies")`. -/
def getProxyConf (sysProxies : List (String × String)) (pref : AddonPrefs) :
    Except PyErr ProxyHandler :=
  if pref.noProxyCheck then
    Except.ok ⟨[]⟩
  else if pref.systemProxyCheck then
    let proxy := sysProxies
    Except.ok ⟨[("http", pyDictGet proxy "http"), ("https", pyDictGet proxy "http")]⟩
  else if pref.userProxyCheck then
    Except.ok ⟨[("http", some pref.proxyUrl), ("https", some pref.proxyUrl)]⟩
  else
    Except.error (PyErr.unboundLocal "proxies")

/-- Model of `urllibInit()`: when the global `request_initialized` flag is
still false, the opener is built — calling `getProxyConf()`, which can
raise (the configuration of `getProxyConf_unboundLocal`) — and the flag is
set; later calls do nothing.  Returns the new flag value (`true` on
success); an exception from `getProxyConf` propagates, leaving the flag
false.  `getSslHandler`, `build_opener` and `install_opener` are modelled
as never raising (ssl available), so `getProxyConf` is the one fallible
step. -/
def urllibInit (sysProxies : List (String × String)) (pref : AddonPrefs)
    (request_initialized : Bool) : Except PyErr Bool :=
  if request_initialized then Except.ok true
  else
    match getProxyConf sysProxies pref with
    | Except.error e => Except.error e
    | Except.ok _ => Except.ok true

/-- The `try` block of `httpGet` together with the `except` clauses and the
final `return data`, parameterised by the decoder `dec` (modelling
`bytes.decode`), the `decode` argument (`none` for a falsy value), and the
network outcome `fetch` for this url.  Returns the value of the final
`return data` together with the list of errors logged by the two `except`
clauses.  `data` starts as `None`; `urlopen` raising leaves it `None`,
while an error raised by a later `read` is caught with `data` holding the
accumulation so far. -/
def httpGetTry (dec : String → List Nat → String) (decode : Option String)
    (fetch : Fetch) : PyVal × List PyErr :=
  match fetch with
  | Fetch.connectFail e => (PyVal.none, [e])
  | Fetch.stream chunks tailErr =>
      let init := match decode with
        | some _ => PyVal.str ""
        | none => PyVal.list []
      let r := readLoop (pyAccumChunk dec decode) init chunks tailErr
      match r.2 with
      | some e => (r.1, [e])
      | none => (r.1, [])

/-- Model of `httpGet(url, ...)`: it first calls `urllibInit()` *outside*
the `try` block, so an exception raised there (the `getProxyConf`
`UnboundLocalError` on a first call) propagates to the caller —
`Except.error`; otherwise the guarded body `httpGetTry` runs and its
result and logged errors are returned. -/
def httpGet (dec : String → List Nat → String) (decode : Option String)
    (sysProxies : List (String × String)) (pref : AddonPrefs)
    (request_initialized : Bool) (fetch : Fetch) :
    Except PyErr (PyVal × List PyErr) :=
  match urllibInit sysProxies pref request_initialized with
  | Except.error e => Except.error e
  | Except.ok _ => Except.ok (httpGetTry dec decode fetch)

/-- Running `httpGet` against a queue of per-attempt network outcomes: the body of
`httpGet` calls `request.urlopen` exactly once (there is no retry loop), so
only the head of the queue is ever consumed. -/
def httpGetNet (dec : String → List Nat → String) (decode : Option String)
    (sysProxies : List (String × String)) (pref : AddonPrefs)
    (request_initialized : Bool) (net : List Fetch) :
    Except PyErr (PyVal × List PyErr) :=
  match net with
  | [] => Except.ok (PyVal.none, [])
  | f :: _ => httpGet dec decode sysProxies pref request_initialized f

/-- The `try` block of `httpDownload` together with its `except` clauses
and the final `return False`, parameterised by the network outcome `fetch`
and by the outcome `openErr` of `open(path, 'wb')` (`some e` when opening
the local file raises; writes to the opened in-memory file are modelled as
always succeeding).  Returns the function's return value, the errors
logged by the `except` clauses, and the bytes written to the local file. -/
def httpDownloadTry (fetch : Fetch) (openErr : Option PyErr) :
    Bool × List PyErr × List Nat :=
  match fetch with
  | Fetch.connectFail e => (false, [e], [])
  | Fetch.stream chunks tailErr =>
      match openErr with
      | some e => (false, [e], [])
      | none =>
          let r := readLoop (fun w p => w ++ p) [] chunks tailErr
          match r.2 with
          | some e => (false, [e], r.1)
          | none => (true, [], r.1)

/-- Model of `httpDownload(url, path, ...)`: like `httpGet` it first calls
`urllibInit()` *outside* the `try` block, so an exception raised there
propagates to the caller uncaught and unlogged; otherwise the guarded body
`httpDownloadTry` runs. -/
def httpDownload (sysProxies : List (String × String)) (pref : AddonPrefs)
    (request_initialized : Bool) (fetch : Fetch) (openErr : Option PyErr) :
    Except PyErr (Bool × List PyErr × List Nat) :=
  match urllibInit sysProxies pref request_initialized with
  | Except.error e => Except.error e
  | Except.ok _ => Except.ok (httpDownloadTry fetch openErr)

/-- A stand-in decoder used for concrete witnesses: decodes each byte to
the character of the same code point (agrees with `bytes.decode('utf-8')`
on ASCII payloads, the only payloads the witnesses use). -/
def asciiDecode : String → List Nat → String :=
  fun _ bs => String.mk (bs.map Char.ofNat)

/-- A stand-in encoder for concrete witnesses: the code points of the
characters (agrees with `str.encode()` on ASCII strings, the only strings
the witnesses use). -/
def asciiEncode : String → List Nat :=
  fun s => s.toList.map Char.toNat

/-! ## Helper lemmas -/

/-- Writing at the end of a buffer appends (`QBuffer.write`). -/
theorem QBuffer.write_at_end (b : QBuffer) (bs : List Nat)
    (h : b.pos = b.data.length) :
    b.write bs = ⟨b.data ++ bs, b.data.length + bs.length, b.closed⟩ := by
  simp [QBuffer.write, h, List.take_of_length_le, List.drop_eq_nil_of_le]

/-- A sequence of `Response.write` calls starting from a buffer positioned
at its end appends the encodings in order. -/
theorem foldl_Response_write (enc : String → List Nat) (writes : List String)
    (b : QBuffer) (h : b.pos = b.data.length) :
    writes.foldl (Response.write enc) b =
      ⟨b.data ++ (writes.map enc).flatten,
       (b.data ++ (writes.map enc).flatten).length, b.closed⟩ := by
  induction writes generalizing b with
  | nil => simp [← h]
  | cons w ws ih =>
      simp only [List.foldl_cons, Response.write]
      rw [QBuffer.write_at_end b (enc w) h, ih _ (by simp)]
      simp

/-- The Windows-path fix-up never changes the url scheme. -/
theorem fixWindowsPath_scheme (u : QUrl) :
    (fixWindowsPath u).scheme = u.scheme := by
  unfold fixWindowsPath
  split
  · cases WINDOWS_PATH_PATTERN_match u.path <;> rfl
  · rfl

/-! ## Claims -/

/-- C7: the bridge's response object is a string-based buffer: after any
sequence of `Response.write(s)` calls followed by `Response.send(ct)`, the
buffer handed to `request.reply` holds exactly the concatenation of the
encodings of the written strings in write order, the reply's content type
is the encoded `ct`, and the buffer has been rewound to position 0 and
closed before replying. -/
theorem responseRun_spec (enc : String → List Nat) (writes : List String)
    (content_type : String) :
    (responseRun enc writes content_type).buffer.data = (writes.map enc).flatten ∧
    (responseRun enc writes content_type).contentType = enc content_type ∧
    (responseRun enc writes content_type).buffer.pos = 0 ∧
    (responseRun enc writes content_type).buffer.closed = true := by
  unfold responseRun Response.send
  rw [foldl_Response_write enc writes QBuffer.fresh rfl]
  simp [QBuffer.fresh, QBuffer.seek, QBuffer.close]

/-- C8: `interceptRequest` forwards the request to the owner's
`interseptLink` exactly when the navigation type is a link navigation and
the (fixed-up) request url has scheme `extman`; the fix-up never changes
the scheme, so the test is equivalent to one on the original url.  Every
other request passes through (`none`). -/
theorem interceptRequest_spec (info : RequestInfo) :
    (interceptRequest info =
      if info.navigationType = NavigationType.link ∧
          (fixWindowsPath info.url).scheme = "extman"
      then some info else none) ∧
    (fixWindowsPath info.url).scheme = info.url.scheme := by
  refine ⟨?_, fixWindowsPath_scheme info.url⟩
  unfold interceptRequest
  by_cases hnav : info.navigationType = NavigationType.link <;>
    by_cases hs : (fixWindowsPath info.url).scheme = "extman" <;>
      simp [hnav, hs]

/-- C9: the claim states that `getProxyConf` returns a `ProxyHandler`
without raising for every combination of the three preference booleans.
The code violates this: with `NoProxyCheck = False`,
`SystemProxyCheck = False` and `UserProxyCheck = False`, no branch assigns
the local variable `proxies`, so the final
`return request.ProxyHandler(proxies)` raises `UnboundLocalError`. -/
theorem getProxyConf_unboundLocal :
    getProxyConf [] ⟨false, false, false, ""⟩ =
      Except.error (PyErr.unboundLocal "proxies") := rfl

/-- When the dispatch condition of `requestStarted` holds, the request
handler is called with the path, the matched action and the decoded
parameter dict. -/
theorem requestStarted_pos (env : WebEnv) (req : SchemeRequest)
    (h : (strEndsWith req.path ".html" ||
          (ACTION_URL_PATTERN_match req.path).isSome) = true) :
    requestStarted env req =
      Except.ok (ReqOutcome.handled req.path (ACTION_URL_PATTERN_match req.path)
        (pyDictOf (req.queryItems.map (fun kv => (kv.1, env.unquote kv.2))))) := by
  unfold requestStarted
  simp [h]

/-- When the dispatch condition of `requestStarted` fails, the request
handler is not called and the outcome is one of the file-serving results
or a propagated read error. -/
theorem requestStarted_neg (env : WebEnv) (req : SchemeRequest)
    (h : (strEndsWith req.path ".html" ||
          (ACTION_URL_PATTERN_match req.path).isSome) = false) :
    requestStarted env req =
      (if env.pathExists (env.fix_win_path req.path) = true then
        match env.readFile (env.fix_win_path req.path) with
        | Except.error e => Except.error e
        | Except.ok body =>
            Except.ok (ReqOutcome.fileReply
              (if strEndsWith (pyLower req.path) ".svg" then "image/svg+xml"
               else if strEndsWith (pyLower req.path) ".png" then "image/png"
               else if strEndsWith (pyLower req.path) ".jpg" then "image/jpeg"
               else if strEndsWith (pyLower req.path) ".css" then "text/css"
               else if strEndsWith (pyLower req.path) ".js" then "text/javascript"
               else "text/plain") body)
      else Except.ok (ReqOutcome.notFound (env.fix_win_path req.path))) := by
  unfold requestStarted
  simp [h]

/-- C1: the host-side request handler is invoked iff the request path ends
in `.html` or matches `ACTION_URL_PATTERN`; in that case it receives the
path, the action name extracted by the pattern (`none` in the plain
`.html` case, by definition of `ACTION_URL_PATTERN_match`), and the dict
of query parameters with URL-decoded values. -/
theorem requestStarted_dispatch (env : WebEnv) (req : SchemeRequest) :
    (handlerInvoked (requestStarted env req) = true ↔
      (strEndsWith req.path ".html" = true ∨
       (ACTION_URL_PATTERN_match req.path).isSome = true)) ∧
    ((strEndsWith req.path ".html" = true ∨
      (ACTION_URL_PATTERN_match req.path).isSome = true) →
      requestStarted env req =
        Except.ok (ReqOutcome.handled req.path (ACTION_URL_PATTERN_match req.path)
          (pyDictOf (req.queryItems.map (fun kv => (kv.1, env.unquote kv.2)))))) := by
  by_cases h : (strEndsWith req.path ".html" ||
      (ACTION_URL_PATTERN_match req.path).isSome) = true
  · refine ⟨?_, fun _ => requestStarted_pos env req h⟩
    rw [requestStarted_pos env req h]
    simpa [handlerInvoked] using Bool.or_eq_true _ _ |>.mp h
  · have h' : (strEndsWith req.path ".html" ||
        (ACTION_URL_PATTERN_match req.path).isSome) = false := by
      simpa using h
    have hne : ¬ (strEndsWith req.path ".html" = true ∨
        (ACTION_URL_PATTERN_match req.path).isSome = true) := by
      simpa using h'
    refine ⟨?_, fun hc => absurd hc hne⟩
    rw [requestStarted_neg env req h']
    constructor
    · intro hinv
      exfalso
      by_cases hex : env.pathExists (env.fix_win_path req.path) = true
      · rw [if_pos hex] at hinv
        cases hr : env.readFile (env.fix_win_path req.path) <;>
          simp [hr, handlerInvoked] at hinv
      · rw [if_neg hex] at hinv
        simp [handlerInvoked] at hinv
    · intro hc
      exact absurd hc hne

/-- C1 witness: a concrete action request is dispatched to the handler
with the extracted action name and decoded parameters. -/
theorem requestStarted_dispatch_witness :
    requestStarted ⟨id, id, fun _ => false, fun _ => Except.ok []⟩
        ⟨"/pkg/action.show", [("a", "b")]⟩ =
      Except.ok (ReqOutcome.handled "/pkg/action.show" (some "show")
        [("a", "b")]) := by
  have h := (requestStarted_dispatch
      ⟨id, id, fun _ => false, fun _ => Except.ok []⟩
      ⟨"/pkg/action.show", [("a", "b")]⟩).2 (Or.inr (by decide))
  rw [h]
  rfl

/-- C2 counterexample: the claim says every failure inside the bridge is
caught and logged and no exception propagates out of the scheme-handler
callback.  `requestStarted` contains no `try`/`except`: for a non-dispatch
path naming a file that exists but cannot be read, the read error
propagates out of the callback. -/
theorem requestStarted_uncaught_error :
    requestStarted ⟨id, id, fun _ => true,
        fun _ => Except.error (PyErr.other "unreadable")⟩
      ⟨"/style.txt", []⟩ = Except.error (PyErr.other "unreadable") := by
  rfl

/-- C2 (amended): `requestStarted` propagates an exception exactly when
the request is not dispatched to the handler, the (fixed-up) file path
exists, and opening/reading the file raises; nothing in the bridge catches
or logs it.  (`interceptRequest` performs no fallible operation, so only
the scheme-handler callback can raise.) -/
theorem requestStarted_error_iff (env : WebEnv) (req : SchemeRequest)
    (e : PyErr) :
    requestStarted env req = Except.error e ↔
      ((strEndsWith req.path ".html" ||
        (ACTION_URL_PATTERN_match req.path).isSome) = false ∧
       env.pathExists (env.fix_win_path req.path) = true ∧
       env.readFile (env.fix_win_path req.path) = Except.error e) := by
  by_cases h : (strEndsWith req.path ".html" ||
      (ACTION_URL_PATTERN_match req.path).isSome) = true
  · rw [requestStarted_pos env req h]
    simp [h]
  · have h' : (strEndsWith req.path ".html" ||
        (ACTION_URL_PATTERN_match req.path).isSome) = false := by
      simpa using h
    rw [requestStarted_neg env req h']
    by_cases hex : env.pathExists (env.fix_win_path req.path) = true
    · simp only [hex, if_pos]
      cases hr : env.readFile (env.fix_win_path req.path) <;>
        simp [h', hex, hr]
    · simp [hex, h']

/-- C2 witness for the amended statement: a concrete unreadable file makes
`requestStarted` return the propagated error. -/
theorem requestStarted_error_iff_witness :
    requestStarted ⟨id, id, fun _ => true,
        fun _ => Except.error (PyErr.other "io")⟩
      ⟨"/a.txt", []⟩ = Except.error (PyErr.other "io") :=
  (requestStarted_error_iff ⟨id, id, fun _ => true,
      fun _ => Except.error (PyErr.other "io")⟩
    ⟨"/a.txt", []⟩ (PyErr.other "io")).mpr ⟨by decide, rfl, rfl⟩

/-- C3: `apply_predefined_flags` looks the database up under the key built
from `pkg.type` (with `Workbench` mapped to `Mod`) and the lowercased
`pkg.name`; when an entry with a nonempty flag dict is found it is merged
into `pkg.flags` (replacing empty flags, extending nonempty ones); when no
entry is found (the lookup defaults to the empty `[]`, which is falsy) the
flags are untouched; and the function returns the same package record (the
`type` and `name` fields are never modified). -/
theorem apply_predefined_flags_spec (db : List (String × List String))
    (pkg : Pkg) :
    (apply_predefined_flags db pkg).type = pkg.type ∧
    (apply_predefined_flags db pkg).name = pkg.name ∧
    ((pyDictGet db ((if pkg.type = "Workbench" then "Mod" else pkg.type) ++
        ":" ++ pyLower pkg.name)).getD [] = [] →
      apply_predefined_flags db pkg = pkg) ∧
    (∀ fl, pyDictGet db ((if pkg.type = "Workbench" then "Mod" else pkg.type) ++
        ":" ++ pyLower pkg.name) = some fl → fl ≠ [] →
      (apply_predefined_flags db pkg).flags =
        if pkg.flags = [] then fl else pyDictUpdateKeys pkg.flags fl) := by
  unfold apply_predefined_flags
  by_cases hfl : (pyDictGet db ((if pkg.type = "Workbench" then "Mod"
      else pkg.type) ++ ":" ++ pyLower pkg.name)).getD [] = []
  · refine ⟨?_, ?_, fun _ => ?_, fun fl hlook hne => ?_⟩
    · simp [hfl]
    · simp [hfl]
    · simp [hfl]
    · exact absurd (by simpa [hlook] using hfl) hne
  · refine ⟨?_, ?_, fun h => absurd h hfl, fun fl hlook hne => ?_⟩
    · by_cases hpf : pkg.flags = [] <;> simp [hfl, hpf]
    · by_cases hpf : pkg.flags = [] <;> simp [hfl, hpf]
    · by_cases hpf : pkg.flags = [] <;> simp [hlook, hpf, hne]

/-- C3 witness: a `Workbench` package with nonempty flags gets the `Mod`
entry for its lowercased name merged in. -/
theorem apply_predefined_flags_spec_witness :
    (apply_predefined_flags [("Mod:a2plus", ["obsolete"])]
        ⟨"Workbench", "A2Plus", ["x"]⟩).flags = ["x", "obsolete"] := by
  have h := (apply_predefined_flags_spec [("Mod:a2plus", ["obsolete"])]
      ⟨"Workbench", "A2Plus", ["x"]⟩).2.2.2 ["obsolete"] (by decide) (by decide)
  rw [h]
  rfl

/-- The cache state and outputs of `n` successive calls of the memoised
`get_flags_database`. -/
theorem get_flags_database_calls_eq (data : FlagsData) (n : Nat) :
    get_flags_database_calls data n =
      (List.replicate n (build_flags_db data),
       if n = 0 then none else some (build_flags_db data),
       min n 1) := by
  induction n with
  | zero => rfl
  | succ n ih =>
      unfold get_flags_database_calls
      rw [ih]
      by_cases hn : n = 0
      · subst hn
        simp [get_flags_database]
      · simp [hn, get_flags_database, List.replicate_succ']
        omega

/-- C4: `get_flags_database` is cached by `functools.lru_cache`: across any
number `n` of calls in one process the resource file is read `min n 1`
times (so at most once), and every call returns the same dictionary —
the one built from the file contents. -/
theorem get_flags_database_cached_spec (data : FlagsData) (n : Nat) :
    (get_flags_database_calls data n).2.2 ≤ 1 ∧
    (get_flags_database_calls data n).1 =
      List.replicate n (build_flags_db data) := by
  rw [get_flags_database_calls_eq]
  exact ⟨by simp, rfl⟩

/-- The read loop of `httpGet` with a truthy `decode` keeps the
accumulator a string. -/
theorem readLoop_str_shape (dec : String → List Nat → String) (codec : String)
    (chunks : List (List Nat)) (tailErr : Option PyErr) (s : String) :
    ∃ s', (readLoop (pyAccumChunk dec (some codec)) (PyVal.str s)
      chunks tailErr).1 = PyVal.str s' := by
  induction chunks generalizing s with
  | nil => exact ⟨s, rfl⟩
  | cons p rest ih =>
      by_cases hp : p = []
      · exact ⟨s, by simp [readLoop, hp]⟩
      · simpa [readLoop, hp, pyAccumChunk] using ih (s ++ dec codec p)

/-- The read loop of `httpGet` with a falsy `decode` keeps the accumulator
a list of byte values. -/
theorem readLoop_list_shape (dec : String → List Nat → String)
    (chunks : List (List Nat)) (tailErr : Option PyErr) (l : List Nat) :
    ∃ l', (readLoop (pyAccumChunk dec none) (PyVal.list l)
      chunks tailErr).1 = PyVal.list l' := by
  induction chunks generalizing l with
  | nil => exact ⟨l, rfl⟩
  | cons p rest ih =>
      by_cases hp : p = []
      · exact ⟨l, by simp [readLoop, hp]⟩
      · simpa [readLoop, hp, pyAccumChunk] using ih (l ++ p)

/-- The guarded body of `httpGet` never returns `None` once a stream was
obtained: the accumulator is reassigned to an empty string or list before
the first `read`. -/
theorem httpGetTry_stream_ne_none (dec : String → List Nat → String)
    (decode : Option String) (chunks : List (List Nat))
    (tailErr : Option PyErr) :
    (httpGetTry dec decode (Fetch.stream chunks tailErr)).1 ≠ PyVal.none := by
  unfold httpGetTry
  cases decode with
  | some codec =>
      obtain ⟨s', hs⟩ := readLoop_str_shape dec codec chunks tailErr ""
      cases hr : readLoop (pyAccumChunk dec (some codec)) (PyVal.str "")
          chunks tailErr with
      | mk v err =>
          rw [hr] at hs
          cases err <;> simp_all
  | none =>
      obtain ⟨l', hl⟩ := readLoop_list_shape dec chunks tailErr []
      cases hr : readLoop (pyAccumChunk dec none) (PyVal.list [])
          chunks tailErr with
      | mk v err =>
          rw [hr] at hl
          cases err <;> simp_all

/-- C5 counterexample: the claim says `httpGet` returns `None` exactly
when the fetch fails, with every error logged and no exception escaping
to the caller.  Two concrete violations: when the connection succeeds, a
first chunk is delivered and a later `read` raises `URLError`, the
`except` clause catches the error with `data` already holding the partial
body, and the final `return data` returns that partial string — not
`None`; and on a first call with `NoProxyCheck`, `SystemProxyCheck` and
`UserProxyCheck` all false, the `urllibInit()` call placed before the
`try` raises `UnboundLocalError` inside `getProxyConf`, and that
exception escapes `httpGet` uncaught and unlogged. -/
theorem httpGet_failed_not_none :
    Fetch.failed (Fetch.stream [[104, 105]]
        (some (PyErr.urlError "connection reset"))) = true ∧
    httpGet asciiDecode (some "utf-8") [] ⟨true, false, false, ""⟩ false
        (Fetch.stream [[104, 105]] (some (PyErr.urlError "connection reset"))) =
      Except.ok (PyVal.str "hi", [PyErr.urlError "connection reset"]) ∧
    PyVal.str "hi" ≠ PyVal.none ∧
    httpGet asciiDecode (some "utf-8") [] ⟨false, false, false, ""⟩ false
        (Fetch.stream [[104, 105]] none) =
      Except.error (PyErr.unboundLocal "proxies") := by
  refine ⟨rfl, ?_, by decide, rfl⟩
  rfl

/-- C5 (amended): `httpGet` performs a single `urlopen` attempt (no retry:
only the head of a queue of per-attempt outcomes is ever consumed).  The
`urllibInit()` call placed before the `try` can raise on a first call
(`getProxyConf` raising `UnboundLocalError`), and that exception escapes
to the caller.  When `urllibInit` does not raise, no exception escapes:
`None` is returned exactly when `urlopen` itself fails — and then the
error is logged — while once a stream was obtained the return value is
the accumulated (possibly partial) body, a string or list distinct from
`None`, even when a later `read` raised (and that error is logged). -/
theorem httpGet_amended (dec : String → List Nat → String)
    (decode : Option String) (sysProxies : List (String × String))
    (pref : AddonPrefs) (ri : Bool) :
    (∀ e fetch, urllibInit sysProxies pref ri = Except.error e →
      httpGet dec decode sysProxies pref ri fetch = Except.error e) ∧
    (∀ e, urllibInit sysProxies pref ri = Except.ok true →
      httpGet dec decode sysProxies pref ri (Fetch.connectFail e) =
        Except.ok (PyVal.none, [e])) ∧
    (∀ chunks tailErr r,
      httpGet dec decode sysProxies pref ri (Fetch.stream chunks tailErr) =
        Except.ok r → r.1 ≠ PyVal.none) ∧
    (∀ f net net', httpGetNet dec decode sysProxies pref ri (f :: net) =
      httpGetNet dec decode sysProxies pref ri (f :: net')) := by
  refine ⟨fun e fetch he => ?_, fun e he => ?_,
    fun chunks tailErr r hr => ?_, fun f net net' => rfl⟩
  · unfold httpGet
    rw [he]
  · unfold httpGet
    rw [he]
    rfl
  · unfold httpGet at hr
    cases hi : urllibInit sysProxies pref ri with
    | error e =>
        rw [hi] at hr
        exact Except.noConfusion hr
    | ok b =>
        rw [hi] at hr
        have hr' : httpGetTry dec decode (Fetch.stream chunks tailErr) = r := by
          simpa using hr
        rw [← hr']
        exact httpGetTry_stream_ne_none dec decode chunks tailErr

/-- C5 witness for the amended statement: with proxies disabled
(`NoProxyCheck` true) a failed connection attempt yields `None` and one
logged error. -/
theorem httpGet_amended_witness :
    httpGet asciiDecode (some "utf-8") [] ⟨true, false, false, ""⟩ false
        (Fetch.connectFail (PyErr.urlError "down")) =
      Except.ok (PyVal.none, [PyErr.urlError "down"]) :=
  (httpGet_amended asciiDecode (some "utf-8") [] ⟨true, false, false, ""⟩
    false).2.1 (PyErr.urlError "down") rfl

/-- When every chunk is nonempty (`read` returns empty bytes only at end
of stream), the byte-appending read loop consumes the whole stream and
reports the trailing error, if any. -/
theorem readLoop_append_eq (chunks : List (List Nat)) (tailErr : Option PyErr)
    (acc : List Nat) (h : ∀ c ∈ chunks, c ≠ []) :
    readLoop (fun w p => w ++ p) acc chunks tailErr =
      (acc ++ chunks.flatten, tailErr) := by
  induction chunks generalizing acc with
  | nil => simp [readLoop]
  | cons p rest ih =>
      have hp : p ≠ [] := h p (by simp)
      simp only [readLoop, if_neg hp]
      rw [ih _ (fun c hc => h c (by simp [hc]))]
      simp

/-- The guarded body of `httpDownload` returns `True` iff no `read` raised
and the local file opened, in which case the file holds the full stream
contents; on a connection failure or a mid-stream failure it logs the one
error and returns `False` (the mid-stream case leaves the partial prefix
in the file). -/
theorem httpDownloadTry_spec (chunks : List (List Nat))
    (tailErr openErr : Option PyErr) (h : ∀ c ∈ chunks, c ≠ []) :
    ((httpDownloadTry (Fetch.stream chunks tailErr) openErr).1 = true ↔
      (tailErr = none ∧ openErr = none)) ∧
    (tailErr = none → openErr = none →
      httpDownloadTry (Fetch.stream chunks tailErr) openErr =
        (true, [], chunks.flatten)) ∧
    (∀ e, httpDownloadTry (Fetch.connectFail e) openErr = (false, [e], [])) ∧
    (∀ e, tailErr = some e → openErr = none →
      httpDownloadTry (Fetch.stream chunks tailErr) openErr =
        (false, [e], chunks.flatten)) := by
  refine ⟨?_, fun ht ho => ?_, fun e => rfl, fun e ht ho => ?_⟩
  · unfold httpDownloadTry
    dsimp only
    cases openErr with
    | some e => simp
    | none =>
        rw [readLoop_append_eq chunks tailErr [] h]
        cases tailErr <;> simp
  · unfold httpDownloadTry
    subst ht ho
    dsimp only
    rw [readLoop_append_eq chunks none [] h]
    simp
  · unfold httpDownloadTry
    subst ht ho
    dsimp only
    rw [readLoop_append_eq chunks (some e) [] h]
    simp

/-- C6 counterexample: the claim says `httpDownload` returns `True`
exactly when the entire stream was read and written, and on any `URLError`
or other exception logs the error, returns `False` and never propagates
it.  On a first call with `NoProxyCheck`, `SystemProxyCheck` and
`UserProxyCheck` all false, the `urllibInit()` call placed before the
`try` raises `UnboundLocalError` inside `getProxyConf`; the exception
escapes `httpDownload` uncaught and unlogged — here even though the
remote stream and the local file are both fine. -/
theorem httpDownload_uncaught_unboundLocal :
    httpDownload [] ⟨false, false, false, ""⟩ false
        (Fetch.stream [[7]] none) none =
      Except.error (PyErr.unboundLocal "proxies") := rfl

/-- C6 (amended): the `urllibInit()` call placed before the `try` can
raise on a first call (`getProxyConf` raising `UnboundLocalError`) and
that exception propagates to the caller uncaught and unlogged.  When
`urllibInit` does not raise, `httpDownload` returns `True` exactly when
the entire remote stream was read and written to the local file, and on
any `URLError` or other exception inside the `try` it logs the one error
and returns `False` (a mid-stream failure leaves the partial prefix in
the file). -/
theorem httpDownload_amended (sysProxies : List (String × String))
    (pref : AddonPrefs) (ri : Bool) (chunks : List (List Nat))
    (tailErr openErr : Option PyErr) (h : ∀ c ∈ chunks, c ≠ []) :
    (∀ e, urllibInit sysProxies pref ri = Except.error e →
      ∀ fetch openE, httpDownload sysProxies pref ri fetch openE =
        Except.error e) ∧
    (urllibInit sysProxies pref ri = Except.ok true →
      (∀ r, httpDownload sysProxies pref ri (Fetch.stream chunks tailErr)
          openErr = Except.ok r →
        (r.1 = true ↔ (tailErr = none ∧ openErr = none))) ∧
      (tailErr = none → openErr = none →
        httpDownload sysProxies pref ri (Fetch.stream chunks tailErr)
          openErr = Except.ok (true, [], chunks.flatten)) ∧
      (∀ e, tailErr = some e → openErr = none →
        httpDownload sysProxies pref ri (Fetch.stream chunks tailErr)
          openErr = Except.ok (false, [e], chunks.flatten)) ∧
      (∀ e openE, httpDownload sysProxies pref ri (Fetch.connectFail e)
          openE = Except.ok (false, [e], []))) := by
  constructor
  · intro e he fetch openE
    unfold httpDownload
    rw [he]
  · intro hinit
    have key : ∀ fetch openE, httpDownload sysProxies pref ri fetch openE =
        Except.ok (httpDownloadTry fetch openE) := by
      intro fetch openE
      unfold httpDownload
      rw [hinit]
    refine ⟨fun r hr => ?_, fun ht ho => ?_, fun e ht ho => ?_,
      fun e openE => ?_⟩
    · rw [key] at hr
      have hr' : httpDownloadTry (Fetch.stream chunks tailErr) openErr = r := by
        simpa using hr
      rw [← hr']
      exact (httpDownloadTry_spec chunks tailErr openErr h).1
    · rw [key, (httpDownloadTry_spec chunks tailErr openErr h).2.1 ht ho]
    · rw [key, (httpDownloadTry_spec chunks tailErr openErr h).2.2.2 e ht ho]
    · rw [key, (httpDownloadTry_spec chunks tailErr openE h).2.2.1 e]

/-- C6 witness for the amended statement: with proxies disabled
(`NoProxyCheck` true) a two-chunk stream with no failure is fully written
and reported successful. -/
theorem httpDownload_amended_witness :
    httpDownload [] ⟨true, false, false, ""⟩ false
        (Fetch.stream [[1, 2], [3]] none) none =
      Except.ok (true, [], [1, 2, 3]) := by
  have h := ((httpDownload_amended [] ⟨true, false, false, ""⟩ false
      [[1, 2], [3]] none none (by decide)).2 rfl).2.1 rfl rfl
  rw [h]
  rfl

/-- The read loop of `httpGet` with a falsy `decode` concatenates the byte
values of all chunks when every chunk is nonempty. -/
theorem readLoop_list_eq (dec : String → List Nat → String)
    (chunks : List (List Nat)) (tailErr : Option PyErr) (l : List Nat)
    (h : ∀ c ∈ chunks, c ≠ []) :
    readLoop (pyAccumChunk dec none) (PyVal.list l) chunks tailErr =
      (PyVal.list (l ++ chunks.flatten), tailErr) := by
  induction chunks generalizing l with
  | nil => simp [readLoop]
  | cons p rest ih =>
      have hp : p ≠ [] := h p (by simp)
      simp only [readLoop, if_neg hp, pyAccumChunk]
      rw [ih _ (fun c hc => h c (by simp [hc]))]
      simp

/-- The read loop of `httpGet` with a truthy `decode` concatenates the
per-chunk decodings when every chunk is nonempty. -/
theorem readLoop_str_eq (dec : String → List Nat → String) (codec : String)
    (chunks : List (List Nat)) (tailErr : Option PyErr) (s : String)
    (h : ∀ c ∈ chunks, c ≠ []) :
    readLoop (pyAccumChunk dec (some codec)) (PyVal.str s) chunks tailErr =
      (PyVal.str (s ++ String.join (chunks.map (dec codec))), tailErr) := by
  induction chunks generalizing s with
  | nil =>
      have : String.join ([] : List String) = "" := rfl
      simp [readLoop, this]
  | cons p rest ih =>
      have hp : p ≠ [] := h p (by simp)
      simp only [readLoop, if_neg hp, pyAccumChunk]
      rw [ih _ (fun c hc => h c (by simp [hc]))]
      have hj : String.join (dec codec p :: rest.map (dec codec)) =
          dec codec p ++ String.join (rest.map (dec codec)) :=
        String.ext (by simp [String.data_append])
      simp only [List.map_cons, hj, String.append_assoc]

/-- C10: on a fully successful fetch, `httpGet` with a falsy `decode`
returns a Python *list* whose elements are the individual byte values of
the response body in order (`data = []` then `data += p` extends the list
element-wise; in particular the result is never a `bytes` object), while
with the default `decode='utf-8'` it returns the string concatenation of
the decoded chunks. -/
theorem httpGet_decode_types (dec : String → List Nat → String)
    (sysProxies : List (String × String)) (pref : AddonPrefs) (ri : Bool)
    (chunks : List (List Nat)) (h : ∀ c ∈ chunks, c ≠ [])
    (hinit : urllibInit sysProxies pref ri = Except.ok true) :
    httpGet dec none sysProxies pref ri (Fetch.stream chunks none) =
      Except.ok (PyVal.list chunks.flatten, []) ∧
    httpGet dec (some "utf-8") sysProxies pref ri (Fetch.stream chunks none) =
      Except.ok (PyVal.str (String.join (chunks.map (dec "utf-8"))), []) ∧
    (∀ l b, PyVal.list l ≠ PyVal.bytes b) := by
  refine ⟨?_, ?_, fun l b => by simp⟩
  · unfold httpGet
    rw [hinit]
    unfold httpGetTry
    dsimp only
    rw [readLoop_list_eq dec chunks none [] h]
    simp
  · unfold httpGet
    rw [hinit]
    unfold httpGetTry
    dsimp only
    rw [readLoop_str_eq dec "utf-8" chunks none "" h]
    simp

/-- C10 witness: with proxies disabled (`NoProxyCheck` true) a concrete
two-chunk body yields the list of its byte values with `decode=None`. -/
theorem httpGet_decode_types_witness :
    httpGet asciiDecode none [] ⟨true, false, false, ""⟩ false
        (Fetch.stream [[104], [105]] none) =
      Except.ok (PyVal.list [104, 105], []) := by
  have h := (httpGet_decode_types asciiDecode [] ⟨true, false, false, ""⟩
      false [[104], [105]] (by decide) rfl).1
  rw [h]
  rfl

end ExtMan
